import Mathlib

/-!
Shallow embedding of the execution server of this repository
(`exec_manager.py`, `bybit_trader.py`, `utils/utils.py`) and proofs about it.

Modelling conventions:
* Python floats are modelled as `ℚ` (every value the claims mention is exact).
* A Python dict result such as `{"success": ..., "message": ...}` becomes a
  structure with the same field names.
* Side effects (database writes, exchange calls, scheduled timers) are recorded
  in an explicit trace (`List Effect`); the outcome of each external call
  (exchange position lookup, close, open, TP/SL, closed-PnL fetch, database
  update success) is supplied by an oracle structure, so theorems quantify over
  every possible behaviour of the exchange and the database.
* Python exceptions are modelled explicitly: code whose body can raise is
  given the corresponding case split, and each `try/except` of the source
  becomes the matching branch.
-/

namespace ClaudeDoTrade

/-! ## utils/utils.py -/

/-- Python `str.lower()` on a single character (ASCII range, which is all the
source ever compares: "long", "short", "yes"). -/
def pyLowerChar (c : Char) : Char :=
  if c.isUpper then Char.ofNat (c.toNat + 32) else c

/-- Python `str.lower()`. -/
def pyLower (s : String) : String := ⟨s.data.map pyLowerChar⟩

/-- `utils/utils.py::calculate_pnl`.
`pnl_ratio = (exit-entry)/entry` for `"long"` (case-insensitive), else
negated; the source then multiplies by `leverage` and returns
`size * entry_price * pnl_ratio` (the multiplication is regrouped here into a
single expression, `base` standing for the pre-leverage ratio).
`leverage : ℤ` follows the source's type hint. -/
def calculate_pnl (entry_price exit_price : ℚ) (position_type : String)
    (size : ℚ) (leverage : ℤ) : ℚ :=
  let base : ℚ :=
    if pyLower position_type = "long" then
      (exit_price - entry_price) / entry_price
    else
      (entry_price - exit_price) / entry_price
  size * entry_price * (base * (leverage : ℚ))

/-- `utils/utils.py::calculate_quantity`.
The only statements in the source's `try` block that can raise are the float
divisions (`notional / current_price` and `raw_qty / step_size`), which raise
`ZeroDivisionError` exactly when the divisor is zero; the `except` clause then
returns `min_qty`.  The guard below models exactly that.  Otherwise:
percentage of balance, leverage, divide by price, floor to `step_size`, clamp
below by `min_qty` and above by `max_qty`. -/
def calculate_quantity (balance : ℚ) (position_size_percent : ℚ) (leverage : ℤ)
    (current_price : ℚ) (min_qty : ℚ) (step_size : ℚ) (max_qty : Option ℚ) : ℚ :=
  if current_price = 0 ∨ step_size = 0 then
    min_qty
  else
    let percentage := position_size_percent / 100
    let available_amount := balance * percentage
    let notional := available_amount * (leverage : ℚ)
    let raw_qty := notional / current_price
    let steps : ℤ := ⌊raw_qty / step_size⌋
    let qty : ℚ := (steps : ℚ) * step_size
    let qty2 : ℚ := if qty < min_qty then min_qty else qty
    match max_qty with
    | some m => if qty2 > m then m else qty2
    | none => qty2

/-! ## Data model of `exec_manager.py` -/

/-- The dict returned by `BybitTrader.get_current_position` when a position
exists (`bybit_trader.py::get_current_position`): the fields of it that
`exec_manager.py` reads. -/
structure Position where
  position_type : String
  size : ℚ
  leverage : ℚ
  entry_price : ℚ
deriving DecidableEq, Repr

/-- The dict returned by `BybitTrader.close_position`. -/
structure CloseResult where
  success : Bool
  message : String
  price : ℚ
  order_id : Option String
deriving DecidableEq, Repr

/-- The dict returned by `BybitTrader.open_position`. -/
structure OpenResult where
  success : Bool
  message : String
  order_id : Option String
  entry_price : ℚ
  size : ℚ
  leverage : ℚ
deriving DecidableEq, Repr

/-- The dict returned by `BybitTrader.set_tp_sl`. -/
structure TpSlResult where
  success : Bool
  message : String
  take_profit : Option ℚ
  stop_loss : Option ℚ
deriving DecidableEq, Repr

/-- One row of the `trades` table as assembled by `exec_manager.py`
(`log_trade` arguments).  The generated `tradeId` (`str(uuid.uuid4())`) is
fresh randomness no claim refers to and is omitted. -/
structure TradeRecord where
  eventId : String
  symbol : String
  orderType : String
  side : String
  positionType : Option String
  quantity : ℚ
  price : ℚ
  leverage : ℚ
  orderStatus : String
  bybitOrderId : Option String
  takeProfit : Option ℚ := none
  stopLoss : Option ℚ := none
  additionalInfo : Option String := none
deriving DecidableEq, Repr

/-- Observable side effects of handling one request, in program order.
`exOpen` stands for the whole of `BybitTrader.open_position` (leverage
setting, quantity computation and market-order placement happen inside it);
`exClose` for `BybitTrader.close_position` (close order plus
`cancel_all_orders`); `exSetTpSl` for `BybitTrader.set_tp_sl`.
`scheduleReconciliation` is the `threading.Timer(30.0, ...)` start. -/
inductive Effect where
  | logEvent (eventId : String) (eventType : String) (symbol : String)
      (positionType : Option String) (execStatus : String)
  | updateEvent (eventId : String) (execStatus : String)
      (errorMessage : Option String)
  | logTrade (t : TradeRecord)
  | updateTradesClosed (symbol : String) (positionType : String)
  | exGetPosition
  | exClose
  | exOpen (positionType : Option String)
  | exSetTpSl
  | scheduleReconciliation (symbol : String) (orderId : Option String)
deriving DecidableEq, Repr

/-- `True` exactly for the exchange-mutating calls: position close, position
open (which performs the leverage set and the order placement), and TP/SL
setting.  Database writes and the read-only position query do not mutate the
exchange. -/
def exchangeMutating : Effect → Bool
  | Effect.exClose => true
  | Effect.exOpen _ => true
  | Effect.exSetTpSl => true
  | _ => false

/-- `True` for `update_execution_event` database writes. -/
def isUpdateEvent : Effect → Bool
  | Effect.updateEvent _ _ _ => true
  | _ => false

/-- The result dict each `_handle_*` method of `ExecManager` returns:
`status` is one of SUCCESS / FAILED / SKIPPED / PARTIAL. -/
structure ExecResult where
  status : String
  message : String
deriving DecidableEq, Repr

/-- The JSON response of `handle_execution_request`:
top-level `status` is `"success"` or `"error"`; the nested handler result, if
any, is in `result`. -/
structure Response where
  status : String
  message : Option String
  result : Option ExecResult
deriving DecidableEq, Repr

/-- A Python computation that either returns normally or raises an uncaught
exception carrying a message. -/
inductive PyResult (α : Type) where
  | ok (val : α)
  | exn (msg : String)
deriving DecidableEq, Repr

/-- The inbound request dict, with the fields `handle_execution_request`
reads.  Absent optional keys are `none`; `aiAnswer` is
`request_data.get("ai_decision", {}).get("Answer", "")` (so `""` when the
advisory payload or its answer is missing). -/
structure Request where
  eventId : Option String
  action : Option String
  symbol : String
  position_type : Option String
  aiAnswer : String
deriving DecidableEq, Repr

/-- Oracle fixing the behaviour of the exchange and of the environment during
one request: the value of each trader call made by `exec_manager.py`, the
generated UUID fallback for a missing `eventId`, and `dispatchRaise`, which
models a Python exception escaping the dispatched `_handle_*` call — the
situation the catch-all `except` of `handle_execution_request`
(lines 128-130) exists for.  (The three concrete handlers wrap their own
bodies in `try/except` and return FAILED dicts, so for them `dispatchRaise`
is `none`; the top-level boundary is defined for any value.) -/
structure TraderOracle where
  current_position : Option Position
  close_result : CloseResult
  open_result : OpenResult
  tp_sl_result : TpSlResult
  genUuid : String
  dispatchRaise : Option String
deriving DecidableEq, Repr

/-! ## `ExecManager` handlers -/

/-- The tail of `_handle_open_position` from line 183 on ("새 포지션 진입"):
open the new position; on failure report FAILED when there was no prior
position and PARTIAL when one was just closed; on success set TP/SL
(non-fatal) and record an OPEN trade row. -/
def open_phase (o : TraderOracle) (event_id symbol : String)
    (position_type : Option String) (had_position : Bool) :
    ExecResult × List Effect :=
  let open_result := o.open_result
  if open_result.success = false then
    ({ status := if had_position then "PARTIAL" else "FAILED",
       message := "포지션 진입 실패: " ++ open_result.message },
     [Effect.exOpen position_type])
  else
    let tp_sl_result := o.tp_sl_result
    let openTrade : TradeRecord :=
      { eventId := event_id, symbol := symbol, orderType := "MARKET",
        side := if position_type = some "long" then "Buy" else "Sell",
        positionType := position_type,
        quantity := open_result.size, price := open_result.entry_price,
        leverage := open_result.leverage,
        takeProfit := if tp_sl_result.success then tp_sl_result.take_profit else none,
        stopLoss := if tp_sl_result.success then tp_sl_result.stop_loss else none,
        orderStatus := "OPEN", bybitOrderId := open_result.order_id }
    ({ status := "SUCCESS", message := "포지션 진입 성공" },
     [Effect.exOpen position_type, Effect.exSetTpSl, Effect.logTrade openTrade])

/-- `exec_manager.py::_handle_open_position`.  Same-side position → SKIPPED;
opposite side → close first (FAILED if the close fails, else record the
flip-close trade and best-effort flip old OPEN rows to CLOSED), then the open
phase. -/
def handle_open_position (o : TraderOracle) (event_id symbol : String)
    (position_type : Option String) : ExecResult × List Effect :=
  match o.current_position with
  | some cp =>
    if some cp.position_type = position_type then
      ({ status := "SKIPPED", message := "이미 포지션이 있습니다." },
       [Effect.exGetPosition])
    else
      let close_result := o.close_result
      if close_result.success = false then
        ({ status := "FAILED",
           message := "기존 포지션 청산 실패: " ++ close_result.message },
         [Effect.exGetPosition, Effect.exClose])
      else
        let closeTrade : TradeRecord :=
          { eventId := event_id, symbol := symbol, orderType := "MARKET",
            side := if cp.position_type = "long" then "Sell" else "Buy",
            positionType := some cp.position_type,
            quantity := cp.size, price := close_result.price,
            leverage := cp.leverage, orderStatus := "FILLED",
            bybitOrderId := close_result.order_id }
        ((open_phase o event_id symbol position_type true).1,
         [Effect.exGetPosition, Effect.exClose, Effect.logTrade closeTrade,
          Effect.updateTradesClosed symbol cp.position_type] ++
           (open_phase o event_id symbol position_type true).2)
  | none =>
    ((open_phase o event_id symbol position_type false).1,
     Effect.exGetPosition :: (open_phase o event_id symbol position_type false).2)

/-- `exec_manager.py::_handle_close_position`.  No position → SKIPPED; close
failure → FAILED; otherwise record a FILLED close trade, schedule the delayed
PnL reconciliation, and best-effort flip old OPEN rows to CLOSED. -/
def handle_close_position (o : TraderOracle) (event_id symbol : String) :
    ExecResult × List Effect :=
  match o.current_position with
  | none =>
    ({ status := "SKIPPED", message := "활성 포지션이 없습니다." },
     [Effect.exGetPosition])
  | some cp =>
    let close_result := o.close_result
    if close_result.success = false then
      ({ status := "FAILED", message := "포지션 청산 실패: " ++ close_result.message },
       [Effect.exGetPosition, Effect.exClose])
    else
      let closeTrade : TradeRecord :=
        { eventId := event_id, symbol := symbol, orderType := "MARKET",
          side := if cp.position_type = "long" then "Sell" else "Buy",
          positionType := some cp.position_type,
          quantity := cp.size, price := close_result.price,
          leverage := cp.leverage, orderStatus := "FILLED",
          bybitOrderId := close_result.order_id }
      ({ status := "SUCCESS", message := "포지션 청산 성공" },
       [Effect.exGetPosition, Effect.exClose, Effect.logTrade closeTrade,
        Effect.scheduleReconciliation symbol close_result.order_id,
        Effect.updateTradesClosed symbol cp.position_type])

/-- `exec_manager.py::_handle_trend_touch`.  No position → SKIPPED; advisory
answer (lower-cased) other than "yes" → SKIPPED; otherwise the same close
flow as `_handle_close_position`, with the trend-touch reason recorded in the
trade row's `additionalInfo`. -/
def handle_trend_touch (o : TraderOracle) (event_id symbol : String)
    (aiAnswer : String) : ExecResult × List Effect :=
  match o.current_position with
  | none =>
    ({ status := "SKIPPED", message := "활성 포지션이 없습니다." },
     [Effect.exGetPosition])
  | some cp =>
    if pyLower aiAnswer ≠ "yes" then
      ({ status := "SKIPPED", message := "AI 결정이 청산이 아닙니다" },
       [Effect.exGetPosition])
    else
      let close_result := o.close_result
      if close_result.success = false then
        ({ status := "FAILED", message := "포지션 청산 실패: " ++ close_result.message },
         [Effect.exGetPosition, Effect.exClose])
      else
        let closeTrade : TradeRecord :=
          { eventId := event_id, symbol := symbol, orderType := "MARKET",
            side := if cp.position_type = "long" then "Sell" else "Buy",
            positionType := some cp.position_type,
            quantity := cp.size, price := close_result.price,
            leverage := cp.leverage, orderStatus := "FILLED",
            bybitOrderId := close_result.order_id,
            additionalInfo := some "trend_touch" }
        ({ status := "SUCCESS", message := "포지션 청산 성공 (추세선 터치)" },
         [Effect.exGetPosition, Effect.exClose, Effect.logTrade closeTrade,
          Effect.scheduleReconciliation symbol close_result.order_id,
          Effect.updateTradesClosed symbol cp.position_type])

/-- `exec_manager.py::_handle_error`: update the event row to FAILED with the
error message — but only when `event_id` is truthy (a non-empty string) —
and return the top-level error response. -/
def handle_error (event_id : String) (error_message : String) :
    Response × List Effect :=
  ({ status := "error", message := some error_message, result := none },
   if event_id ≠ "" then
     [Effect.updateEvent event_id "FAILED" (some error_message)]
   else
     [])

/-- Python `str.upper()` restricted to ASCII (the action names are ASCII). -/
def pyUpperChar (c : Char) : Char :=
  if c.isLower then Char.ofNat (c.toNat - 32) else c

/-- Python `str.upper()`. -/
def pyUpper (s : String) : String := ⟨s.data.map pyUpperChar⟩

/-- `exec_manager.py::handle_execution_request`, handling one request against
the configured symbol set `supported` (the keys of `self.traders`).

Order of operations, as in the source: a missing `action` raises
(`action.upper()` on `None`) before anything is logged; otherwise the
PENDING event row is inserted first, then — inside the catch-all `try` —
the symbol is checked, the action dispatched, and the event updated exactly
once, either by the success path (lines 110-119) or by `_handle_error`.
`o.dispatchRaise = some msg` makes the dispatched handler call raise, which
the catch-all turns into `_handle_error` with the exception text. -/
def handle_execution_request (supported : List String) (req : Request)
    (o : TraderOracle) : PyResult Response × List Effect :=
  match req.action with
  | none => (PyResult.exn "AttributeError: NoneType object has no attribute upper", [])
  | some action =>
    let event_id := req.eventId.getD o.genUuid
    let logEff := Effect.logEvent event_id (pyUpper action) req.symbol
      req.position_type "PENDING"
    if req.symbol ∉ supported then
      (PyResult.ok (handle_error event_id ("지원하지 않는 심볼: " ++ req.symbol)).1,
       logEff :: (handle_error event_id ("지원하지 않는 심볼: " ++ req.symbol)).2)
    else if action = "open_position" ∨ action = "close_position" ∨
        action = "trend_touch" then
      match o.dispatchRaise with
      | some msg =>
        (PyResult.ok (handle_error event_id ("실행 처리 오류: " ++ msg)).1,
         logEff :: (handle_error event_id ("실행 처리 오류: " ++ msg)).2)
      | none =>
        let dispatched :=
          if action = "open_position" then
            handle_open_position o event_id req.symbol req.position_type
          else if action = "close_position" then
            handle_close_position o event_id req.symbol
          else
            handle_trend_touch o event_id req.symbol req.aiAnswer
        let upd := Effect.updateEvent event_id dispatched.1.status
          (if dispatched.1.status ≠ "SUCCESS" then some dispatched.1.message else none)
        (PyResult.ok { status := "success", message := none, result := some dispatched.1 },
         logEff :: dispatched.2 ++ [upd])
    else
      (PyResult.ok (handle_error event_id ("지원하지 않는 액션: " ++ action)).1,
       logEff :: (handle_error event_id ("지원하지 않는 액션: " ++ action)).2)

/-! ## `ExecManager._update_trade_pnl` (bulk reconciliation) -/

/-- One entry of the closed-PnL list the exchange API returns
(`result.list` items), with the fields the source reads. -/
structure PnlItem where
  orderId : Option String
  closedPnl : ℚ
  avgEntryPrice : ℚ
  avgExitPrice : ℚ
deriving DecidableEq, Repr

/-- The outcome of the inner `get_closed_pnl` call for a symbol:
`reqError` models both a `requests` exception and a non-200 HTTP status (the
source turns both into a dict containing the key `"error"`), and `response`
carries the body's `retCode` and `result.list`. -/
inductive FetchOutcome where
  | reqError (msg : String)
  | response (retCode : ℤ) (items : List PnlItem)
deriving DecidableEq, Repr

/-- A row of the `SELECT tradeId, symbol, bybitOrderId FROM trades ...`
result that the bulk pass iterates over. -/
structure DbTrade where
  tradeId : String
  symbol : String
  bybitOrderId : Option String
deriving DecidableEq, Repr

/-- The `pnl`/metadata update performed for one matched trade. -/
structure PnlUpdate where
  tradeId : String
  pnl : ℚ
  entry_price : ℚ
  exit_price : ℚ
deriving DecidableEq, Repr

/-- Environment oracle for one bulk reconciliation run: per-symbol API
credentials, the closed-PnL fetch outcome per symbol, and whether the
`UPDATE trades SET pnl = ...` statement raises for a given trade id. -/
structure PnlOracle where
  apiKey : String → String
  apiSecret : String → String
  fetch : String → FetchOutcome
  dbUpdateRaises : String → Bool

/-- The Python `dict` grouping of lines 349-354: insertion-ordered grouping
of the candidate trades by symbol, preserving per-symbol trade order. -/
def groupBySymbol (trades : List DbTrade) : List (String × List DbTrade) :=
  trades.foldl
    (fun acc t =>
      if acc.any (fun p => p.1 = t.symbol) then
        acc.map (fun p => if p.1 = t.symbol then (p.1, p.2 ++ [t]) else p)
      else
        acc ++ [(t.symbol, [t])])
    []

/-- The inner `for trade in trades:` loop (lines 451-489) over one symbol's
candidates, given that symbol's fetched PnL list.  Returns the updates
committed, and `true` when a database update raised — which propagates out
of both loops to the outer `except` (line 497), committed updates staying in
place.  A trade with a falsy order id, or with no PnL entry of equal order
id, is skipped (`continue`). -/
def processSymbolTrades (o : PnlOracle) (items : List PnlItem) :
    List DbTrade → List PnlUpdate × Bool
  | [] => ([], false)
  | t :: rest =>
    match t.bybitOrderId with
    | none => processSymbolTrades o items rest
    | some oid =>
      match items.find? (fun it => it.orderId = some oid) with
      | none => processSymbolTrades o items rest
      | some it =>
        if o.dbUpdateRaises t.tradeId then
          ([], true)
        else
          ({ tradeId := t.tradeId, pnl := it.closedPnl,
             entry_price := it.avgEntryPrice,
             exit_price := it.avgExitPrice } :: (processSymbolTrades o items rest).1,
           (processSymbolTrades o items rest).2)

/-- The outer `for symbol, trades in trades_by_symbol.items():` loop
(lines 357-495).  Missing credentials, a fetch error, a non-zero `retCode`
and an empty PnL list each `continue` to the next symbol; an exception from
a trade update aborts the whole run. -/
def processSymbols (o : PnlOracle) :
    List (String × List DbTrade) → List PnlUpdate × Bool
  | [] => ([], false)
  | (symbol, trades) :: rest =>
    if o.apiKey symbol = "" ∨ o.apiSecret symbol = "" then
      processSymbols o rest
    else
      match o.fetch symbol with
      | FetchOutcome.reqError _ => processSymbols o rest
      | FetchOutcome.response retCode items =>
        if retCode ≠ 0 then
          processSymbols o rest
        else if items = [] then
          processSymbols o rest
        else
          if (processSymbolTrades o items trades).2 then
            ((processSymbolTrades o items trades).1, true)
          else
            ((processSymbolTrades o items trades).1 ++ (processSymbols o rest).1,
             (processSymbols o rest).2)

/-- `exec_manager.py::_update_trade_pnl` in bulk mode (no arguments): the
candidate trades are every FILLED row with null `pnl`; they are grouped by
symbol and processed as above.  The run's value is the list of committed
updates plus whether it was cut short by a database exception. -/
def update_trade_pnl_bulk (o : PnlOracle) (trades_to_update : List DbTrade) :
    List PnlUpdate × Bool :=
  processSymbols o (groupBySymbol trades_to_update)

/-- `true` exactly when the closed-PnL fetch for `symbol` fails: a request
error / non-200 status, or a body with non-zero `retCode`. -/
def fetchFailed (o : PnlOracle) (symbol : String) : Bool :=
  match o.fetch symbol with
  | FetchOutcome.reqError _ => true
  | FetchOutcome.response retCode _ => retCode ≠ 0

/-- The top-level `status` field of a (non-raising) handler response. -/
def topStatus : PyResult Response → Option String
  | PyResult.ok r => some r.status
  | PyResult.exn _ => none

/-! Concrete inputs used by witnesses and counterexamples. -/

def posShort : Position :=
  { position_type := "short", size := 1, leverage := 5, entry_price := 100 }

def closeFailRes : CloseResult :=
  { success := false, message := "rejected", price := 0, order_id := none }

def closeOkRes : CloseResult :=
  { success := true, message := "ok", price := 100, order_id := some "ord1" }

def openFailRes : OpenResult :=
  { success := false, message := "rejected", order_id := none,
    entry_price := 0, size := 0, leverage := 0 }

def tpslOkRes : TpSlResult :=
  { success := true, message := "ok", take_profit := some 103, stop_loss := some 99 }

def oW1 : TraderOracle :=
  { current_position := some posShort, close_result := closeFailRes,
    open_result := openFailRes, tp_sl_result := tpslOkRes,
    genUuid := "uuid-1", dispatchRaise := none }

def oW2 : TraderOracle :=
  { current_position := none, close_result := closeOkRes,
    open_result := openFailRes, tp_sl_result := tpslOkRes,
    genUuid := "uuid-2", dispatchRaise := none }

def posLong : Position :=
  { position_type := "long", size := 1, leverage := 5, entry_price := 100 }

def openOkRes : OpenResult :=
  { success := true, message := "ok", order_id := some "ord2",
    entry_price := 100, size := 1, leverage := 5 }

def oW3 : TraderOracle :=
  { current_position := some posLong, close_result := closeOkRes,
    open_result := openOkRes, tp_sl_result := tpslOkRes,
    genUuid := "uuid-3", dispatchRaise := none }

/-- An OPEN request for a symbol outside the configured set. -/
def reqC5 : Request :=
  { eventId := some "e5", action := some "open_position", symbol := "DOGEUSDT",
    position_type := some "long", aiAnswer := "" }

/-- An OPEN request for a configured symbol. -/
def reqW10 : Request :=
  { eventId := some "e10", action := some "open_position", symbol := "BTCUSDT",
    position_type := some "long", aiAnswer := "" }

/-! Concrete reconciliation inputs. -/

def tA : DbTrade :=
  { tradeId := "t1", symbol := "AAAUSDT", bybitOrderId := some "o1" }

def tB : DbTrade :=
  { tradeId := "t2", symbol := "AAAUSDT", bybitOrderId := some "o2" }

def itemsC7 : List PnlItem :=
  [{ orderId := some "o1", closedPnl := 5, avgEntryPrice := 100, avgExitPrice := 105 },
   { orderId := some "o2", closedPnl := 7, avgEntryPrice := 100, avgExitPrice := 107 }]

/-- Both trades have matching closed-PnL records, but the database update for
"t1" raises. -/
def oC7 : PnlOracle :=
  { apiKey := fun _ => "k", apiSecret := fun _ => "s",
    fetch := fun _ => FetchOutcome.response 0 itemsC7,
    dbUpdateRaises := fun tid => tid == "t1" }

/-- Same environment with no database failure. -/
def oC7ok : PnlOracle :=
  { apiKey := fun _ => "k", apiSecret := fun _ => "s",
    fetch := fun _ => FetchOutcome.response 0 itemsC7,
    dbUpdateRaises := fun _ => false }

/-- Environment whose closed-PnL fetch always fails. -/
def oC7fail : PnlOracle :=
  { apiKey := fun _ => "k", apiSecret := fun _ => "s",
    fetch := fun _ => FetchOutcome.reqError "connection reset",
    dbUpdateRaises := fun _ => false }

end ClaudeDoTrade

namespace ClaudeDoTrade

/-! ## Theorems -/

/-- C1: for every OPEN request where the live exchange position holds the
opposite side to the requested side, a close of the existing position is
attempted before any new open; and if that close fails, the result status is
FAILED and the new open is never attempted (no open order is submitted). -/
theorem open_flip_closes_first (o : TraderOracle) (event_id symbol : String)
    (position_type : Option String) (cp : Position)
    (hpos : o.current_position = some cp)
    (hside : some cp.position_type ≠ position_type) :
    (∃ l₁ l₂,
        (handle_open_position o event_id symbol position_type).2 = l₁ ++ l₂ ∧
        Effect.exClose ∈ l₁ ∧ ∀ pt, Effect.exOpen pt ∉ l₁) ∧
    (o.close_result.success = false →
      (handle_open_position o event_id symbol position_type).1.status = "FAILED" ∧
      ∀ pt, Effect.exOpen pt ∉ (handle_open_position o event_id symbol position_type).2) := by
  constructor
  · refine ⟨[Effect.exGetPosition, Effect.exClose],
      List.drop 2 (handle_open_position o event_id symbol position_type).2,
      ?_, by simp, by simp⟩
    by_cases hc : o.close_result.success = false <;>
      simp [handle_open_position, hpos, hside, hc]
  · intro hc
    refine ⟨?_, ?_⟩ <;> simp [handle_open_position, hpos, hside, hc]

/-- C2: if an opposite-side position was held and its close succeeded but the
subsequent open failed, the result status is PARTIAL; if there was no prior
position and the open failed, the result status is FAILED; the two statuses
are distinct. -/
theorem open_failure_outcome_split (o : TraderOracle)
    (event_id symbol : String) (position_type : Option String)
    (hopen : o.open_result.success = false) :
    (∀ cp, o.current_position = some cp → some cp.position_type ≠ position_type →
        o.close_result.success = true →
        (handle_open_position o event_id symbol position_type).1.status = "PARTIAL") ∧
    (o.current_position = none →
        (handle_open_position o event_id symbol position_type).1.status = "FAILED") ∧
    ("PARTIAL" : String) ≠ "FAILED" := by
  refine ⟨?_, ?_, by decide⟩
  · intro cp hpos hside hclose
    simp [handle_open_position, hpos, hside, hclose, open_phase, hopen]
  · intro hpos
    simp [handle_open_position, hpos, open_phase, hopen]

/-- C6: CLOSE and TREND_TOUCH requests handled while no live position exists
return SKIPPED, and no trade row is written. -/
theorem close_and_trend_touch_skip_when_flat (o : TraderOracle)
    (event_id symbol aiAnswer : String) (hpos : o.current_position = none) :
    ((handle_close_position o event_id symbol).1.status = "SKIPPED" ∧
      ∀ t, Effect.logTrade t ∉ (handle_close_position o event_id symbol).2) ∧
    ((handle_trend_touch o event_id symbol aiAnswer).1.status = "SKIPPED" ∧
      ∀ t, Effect.logTrade t ∉ (handle_trend_touch o event_id symbol aiAnswer).2) := by
  simp [handle_close_position, handle_trend_touch, hpos]

/-- C8 (counterexample): `calculate_pnl(100, 110, "long", 1, 5)` is 50, not
the claimed 0.5 (the claim's own formula `1*100*0.10*5` equals 50). -/
theorem calculate_pnl_not_half :
    calculate_pnl 100 110 "long" 1 5 = 50 ∧ ((1 : ℚ)/2) ≠ 50 := by
  constructor
  · simp only [calculate_pnl]
    rw [if_pos (by decide)]
    norm_num
  · norm_num

/-- C8 (amended): with entry 100, exit 110, qty 1 and leverage 5 the code
returns 50 for a long position and -50 for a short one, per
`pnl = qty * entry * ratio * leverage` with `ratio = (exit-entry)/entry`
for long, negated for short. -/
theorem calculate_pnl_values :
    calculate_pnl 100 110 "long" 1 5 = 50 ∧
    calculate_pnl 100 110 "short" 1 5 = -50 := by
  constructor
  · simp only [calculate_pnl]
    rw [if_pos (by decide)]
    norm_num
  · simp only [calculate_pnl]
    rw [if_neg (by decide)]
    norm_num

/-- Witness for C1 at a concrete flip request whose close fails. -/
theorem open_flip_closes_first_witness :
    (handle_open_position oW1 "e1" "BTCUSDT" (some "long")).1.status = "FAILED" := by
  have h := open_flip_closes_first oW1 "e1" "BTCUSDT" (some "long") posShort rfl
    (by decide)
  exact (h.2 rfl).1

/-- Witness for C2 at a concrete no-prior-position request whose open fails. -/
theorem open_failure_outcome_split_witness :
    (handle_open_position oW2 "e2" "BTCUSDT" (some "long")).1.status = "FAILED" := by
  have h := open_failure_outcome_split oW2 "e2" "BTCUSDT" (some "long") rfl
  exact h.2.1 rfl

/-- Witness for C6 at a concrete flat-account CLOSE request. -/
theorem close_and_trend_touch_skip_when_flat_witness :
    (handle_close_position oW2 "e6" "BTCUSDT").1.status = "SKIPPED" := by
  have h := close_and_trend_touch_skip_when_flat oW2 "e6" "BTCUSDT" "no" rfl
  exact h.1.1

end ClaudeDoTrade

namespace ClaudeDoTrade

/-- Helper: the open phase writes no `update_execution_event`. -/
theorem open_phase_no_update (o : TraderOracle) (event_id symbol : String)
    (position_type : Option String) (had_position : Bool) :
    (open_phase o event_id symbol position_type had_position).2.filter
      isUpdateEvent = [] := by
  by_cases h : o.open_result.success = false <;>
    simp [open_phase, h, isUpdateEvent]

/-- Helper: `_handle_open_position` writes no `update_execution_event`. -/
theorem handle_open_position_no_update (o : TraderOracle)
    (event_id symbol : String) (position_type : Option String) :
    (handle_open_position o event_id symbol position_type).2.filter
      isUpdateEvent = [] := by
  cases hpos : o.current_position with
  | none => simp [handle_open_position, hpos, isUpdateEvent, open_phase_no_update]
  | some cp =>
    by_cases hside : some cp.position_type = position_type
    · simp [handle_open_position, hpos, hside, isUpdateEvent]
    · by_cases hc : o.close_result.success = false <;>
        simp [handle_open_position, hpos, hside, hc, isUpdateEvent,
          open_phase_no_update]

/-- Helper: `_handle_close_position` writes no `update_execution_event`. -/
theorem handle_close_position_no_update (o : TraderOracle)
    (event_id symbol : String) :
    (handle_close_position o event_id symbol).2.filter isUpdateEvent = [] := by
  cases hpos : o.current_position with
  | none => simp [handle_close_position, hpos, isUpdateEvent]
  | some cp =>
    by_cases hc : o.close_result.success = false <;>
      simp [handle_close_position, hpos, hc, isUpdateEvent]

/-- Helper: `_handle_trend_touch` writes no `update_execution_event`. -/
theorem handle_trend_touch_no_update (o : TraderOracle)
    (event_id symbol aiAnswer : String) :
    (handle_trend_touch o event_id symbol aiAnswer).2.filter isUpdateEvent = [] := by
  cases hpos : o.current_position with
  | none => simp [handle_trend_touch, hpos, isUpdateEvent]
  | some cp =>
    by_cases hy : pyLower aiAnswer ≠ "yes"
    · simp [handle_trend_touch, hpos, hy, isUpdateEvent]
    · by_cases hc : o.close_result.success = false <;>
        simp [handle_trend_touch, hpos, hy, hc, isUpdateEvent]

/-- C3: an OPEN request for a configured symbol whose live position already
has the requested side resolves to a SKIPPED result and makes no
exchange-mutating call while being handled. -/
theorem open_same_side_skipped (supported : List String) (req : Request)
    (o : TraderOracle) (cp : Position)
    (ha : req.action = some "open_position") (hs : req.symbol ∈ supported)
    (hr : o.dispatchRaise = none)
    (hpos : o.current_position = some cp)
    (hside : req.position_type = some cp.position_type) :
    (∃ r, (handle_execution_request supported req o).1 = PyResult.ok r ∧
        ∃ er, r.result = some er ∧ er.status = "SKIPPED") ∧
    ∀ e ∈ (handle_execution_request supported req o).2,
      exchangeMutating e = false := by
  constructor
  · refine ⟨Response.mk "success" none
      (some (handle_open_position o (req.eventId.getD o.genUuid)
        req.symbol req.position_type).1), ?_, ?_⟩
    · simp [handle_execution_request, ha, hs, hr]
    · refine ⟨_, rfl, ?_⟩
      simp [handle_open_position, hpos, hside]
  · intro e he
    simp [handle_execution_request, ha, hs, hr, handle_open_position, hpos,
      hside] at he
    rcases he with h | h | h <;> subst h <;> rfl

end ClaudeDoTrade

namespace ClaudeDoTrade

/-- Witness for C3: concrete same-side OPEN request, no mutating calls. -/
theorem open_same_side_skipped_witness :
    (handle_execution_request ["BTCUSDT"] reqW10 oW3).2.filter
      (fun e => exchangeMutating e) = [] := by
  have h := open_same_side_skipped ["BTCUSDT"] reqW10 oW3 posLong rfl
    (by decide) rfl rfl rfl
  exact List.filter_eq_nil_iff.mpr (fun a ha => by simp [h.2 a ha])

/-- C4: every handled request (one whose `action` key is present, so the
PENDING insert is reached, with a non-empty event id) produces exactly one
`update_execution_event` write, always for that request's event id; and when
the dispatched handler raises, the catch-all still produces that single
update, recording FAILED with the exception text. -/
theorem event_updated_exactly_once (supported : List String) (req : Request)
    (o : TraderOracle) (a : String) (ha : req.action = some a)
    (hid : req.eventId.getD o.genUuid ≠ "") :
    (∃ st m, (handle_execution_request supported req o).2.filter isUpdateEvent =
        [Effect.updateEvent (req.eventId.getD o.genUuid) st m]) ∧
    (∀ msg, o.dispatchRaise = some msg → req.symbol ∈ supported →
      (a = "open_position" ∨ a = "close_position" ∨ a = "trend_touch") →
      (handle_execution_request supported req o).2.filter isUpdateEvent =
        [Effect.updateEvent (req.eventId.getD o.genUuid) "FAILED"
          (some ("실행 처리 오류: " ++ msg))]) := by
  constructor
  · by_cases hs : req.symbol ∈ supported
    · by_cases hact : a = "open_position" ∨ a = "close_position" ∨ a = "trend_touch"
      · cases hr : o.dispatchRaise with
        | some msg =>
          exact ⟨"FAILED", some ("실행 처리 오류: " ++ msg),
            by simp [handle_execution_request, ha, hs, hact, hr, handle_error,
              hid, isUpdateEvent]⟩
        | none =>
          rcases hact with h | h | h <;> subst h
          · exact ⟨(handle_open_position o (req.eventId.getD o.genUuid)
                req.symbol req.position_type).1.status,
              (if (handle_open_position o (req.eventId.getD o.genUuid)
                  req.symbol req.position_type).1.status ≠ "SUCCESS" then
                some (handle_open_position o (req.eventId.getD o.genUuid)
                  req.symbol req.position_type).1.message
              else none),
              by simp [handle_execution_request, ha, hs, hr, isUpdateEvent,
                List.filter_append, handle_open_position_no_update]⟩
          · exact ⟨(handle_close_position o (req.eventId.getD o.genUuid)
                req.symbol).1.status,
              (if (handle_close_position o (req.eventId.getD o.genUuid)
                  req.symbol).1.status ≠ "SUCCESS" then
                some (handle_close_position o (req.eventId.getD o.genUuid)
                  req.symbol).1.message
              else none),
              by simp [handle_execution_request, ha, hs, hr, isUpdateEvent,
                List.filter_append, handle_close_position_no_update]⟩
          · exact ⟨(handle_trend_touch o (req.eventId.getD o.genUuid)
                req.symbol req.aiAnswer).1.status,
              (if (handle_trend_touch o (req.eventId.getD o.genUuid)
                  req.symbol req.aiAnswer).1.status ≠ "SUCCESS" then
                some (handle_trend_touch o (req.eventId.getD o.genUuid)
                  req.symbol req.aiAnswer).1.message
              else none),
              by simp [handle_execution_request, ha, hs, hr, isUpdateEvent,
                List.filter_append, handle_trend_touch_no_update]⟩
      · exact ⟨"FAILED", some ("지원하지 않는 액션: " ++ a),
          by simp [handle_execution_request, ha, hs, hact, handle_error, hid,
            isUpdateEvent]⟩
    · exact ⟨"FAILED", some ("지원하지 않는 심볼: " ++ req.symbol),
        by simp [handle_execution_request, ha, hs, handle_error, hid,
          isUpdateEvent]⟩
  · intro msg hr hs hact
    simp [handle_execution_request, ha, hs, hact, hr, handle_error, hid,
      isUpdateEvent]

/-- Witness for C4 at a concrete request. -/
theorem event_updated_exactly_once_witness :
    ∃ st m, (handle_execution_request ["BTCUSDT"] reqW10 oW2).2.filter
      isUpdateEvent = [Effect.updateEvent "e10" st m] := by
  have h := event_updated_exactly_once ["BTCUSDT"] reqW10 oW2 "open_position"
    rfl (by decide)
  exact h.1

end ClaudeDoTrade

namespace ClaudeDoTrade

/-- C10: whenever the handler body runs (the `action` key is present), the
top-level response status is `"success"` or `"error"`, and it is `"error"`
precisely for an unsupported symbol, an unsupported action, or an exception
caught by the catch-all — never because the nested result status is FAILED,
SKIPPED or PARTIAL. -/
theorem top_status_success_vs_error (supported : List String) (req : Request)
    (o : TraderOracle) (a : String) (ha : req.action = some a) :
    (topStatus (handle_execution_request supported req o).1 = some "success" ∨
     topStatus (handle_execution_request supported req o).1 = some "error") ∧
    (topStatus (handle_execution_request supported req o).1 = some "error" ↔
      (req.symbol ∉ supported ∨
       ¬(a = "open_position" ∨ a = "close_position" ∨ a = "trend_touch") ∨
       o.dispatchRaise ≠ none)) := by
  by_cases hs : req.symbol ∈ supported
  · by_cases hact : a = "open_position" ∨ a = "close_position" ∨ a = "trend_touch"
    · cases hr : o.dispatchRaise with
      | some msg =>
        refine ⟨Or.inr ?_, ?_⟩ <;>
          simp [handle_execution_request, ha, hs, hact, hr, handle_error,
            topStatus]
      | none =>
        refine ⟨Or.inl ?_, ?_⟩ <;>
          simp [handle_execution_request, ha, hs, hact, hr, topStatus]
    · refine ⟨Or.inr ?_, ?_⟩ <;>
        simp [handle_execution_request, ha, hs, hact, handle_error, topStatus]
  · refine ⟨Or.inr ?_, ?_⟩ <;>
      simp [handle_execution_request, ha, hs, handle_error, topStatus]

/-- Witness for C10: a supported request whose nested result is FAILED (the
open is rejected) still gets top-level status `"success"`. -/
theorem top_status_success_vs_error_witness :
    topStatus (handle_execution_request ["BTCUSDT"] reqW10 oW2).1 =
      some "success" := by
  have h := top_status_success_vs_error ["BTCUSDT"] reqW10 oW2 "open_position" rfl
  rcases h.1 with hok | herr
  · exact hok
  · exfalso
    rcases h.2.mp herr with h1 | h1 | h1
    · exact h1 (by decide)
    · exact h1 (Or.inl rfl)
    · exact h1 rfl

/-- C5 (counterexample): for the unsupported symbol "DOGEUSDT" the handler
does log an ExecutionEvent row (PENDING) before returning the terminal
error, refuting "the rejection happens prior to the event insert". -/
theorem unsupported_symbol_event_logged :
    ("DOGEUSDT" ∈ (["BTCUSDT", "ETHUSDT"] : List String)) = False ∧
    (handle_execution_request ["BTCUSDT", "ETHUSDT"] reqC5 oW2).1 =
      PyResult.ok (Response.mk "error" (some "지원하지 않는 심볼: DOGEUSDT") none) ∧
    Effect.logEvent "e5" "OPEN_POSITION" "DOGEUSDT" (some "long") "PENDING" ∈
      (handle_execution_request ["BTCUSDT", "ETHUSDT"] reqC5 oW2).2 := by
  refine ⟨by simp, ?_, ?_⟩
  · simp [handle_execution_request, reqC5, handle_error, oW2]
  · simp [handle_execution_request, reqC5, handle_error, oW2, pyUpper,
      pyUpperChar]

/-- C5 (amended): for every request whose symbol is outside the configured
set, the PENDING ExecutionEvent row is inserted first and the terminal error
then updates that same row to FAILED — the rejection happens after the event
insert, not before it. -/
theorem unsupported_symbol_logs_then_fails (supported : List String)
    (req : Request) (o : TraderOracle) (a : String) (ha : req.action = some a)
    (hs : req.symbol ∉ supported) (hid : req.eventId.getD o.genUuid ≠ "") :
    (handle_execution_request supported req o).1 =
      PyResult.ok (Response.mk "error"
        (some ("지원하지 않는 심볼: " ++ req.symbol)) none) ∧
    (handle_execution_request supported req o).2 =
      [Effect.logEvent (req.eventId.getD o.genUuid) (pyUpper a) req.symbol
         req.position_type "PENDING",
       Effect.updateEvent (req.eventId.getD o.genUuid) "FAILED"
         (some ("지원하지 않는 심볼: " ++ req.symbol))] := by
  constructor <;> simp [handle_execution_request, ha, hs, handle_error, hid]

/-- Witness for the amended C5 at a concrete request. -/
theorem unsupported_symbol_logs_then_fails_witness :
    (handle_execution_request ["BTCUSDT", "ETHUSDT"] reqC5 oW2).1 =
      PyResult.ok (Response.mk "error"
        (some ("지원하지 않는 심볼: " ++ "DOGEUSDT")) none) := by
  have h := unsupported_symbol_logs_then_fails ["BTCUSDT", "ETHUSDT"] reqC5 oW2
    "open_position" rfl (by decide) (by decide)
  exact h.1

end ClaudeDoTrade

namespace ClaudeDoTrade

/-- C7 (counterexample): with two candidate trades of the same symbol, both
matched by the fetched closed-PnL list, a database failure updating the
first trade aborts the whole run: the second trade is not updated either
(it would have been, had the first update not raised). -/
theorem pnl_update_failure_aborts_batch :
    (update_trade_pnl_bulk oC7 [tA, tB]).1 = [] ∧
    (update_trade_pnl_bulk oC7 [tA, tB]).2 = true ∧
    (update_trade_pnl_bulk oC7ok [tA, tB]).1.map (fun u => u.tradeId) =
      ["t1", "t2"] := by
  refine ⟨?_, ?_, ?_⟩ <;> decide

/-- C7 (amended): a failure fetching one symbol's closed-PnL data skips that
symbol and leaves the processing of the remaining symbols unchanged; but a
database failure updating one trade aborts the run — the already committed
updates of that symbol are kept, and no later trade or symbol is
processed. -/
theorem pnl_reconciliation_isolation (o : PnlOracle) (symbol : String)
    (trades : List DbTrade) (rest : List (String × List DbTrade)) :
    (fetchFailed o symbol = true →
      processSymbols o ((symbol, trades) :: rest) = processSymbols o rest) ∧
    (∀ items, ¬(o.apiKey symbol = "" ∨ o.apiSecret symbol = "") →
      o.fetch symbol = FetchOutcome.response 0 items → items ≠ [] →
      (processSymbolTrades o items trades).2 = true →
      processSymbols o ((symbol, trades) :: rest) =
        ((processSymbolTrades o items trades).1, true)) := by
  constructor
  · intro hf
    by_cases hk : o.apiKey symbol = "" ∨ o.apiSecret symbol = ""
    · simp [processSymbols, hk]
    · cases hfetch : o.fetch symbol with
      | reqError m => simp [processSymbols, hk, hfetch]
      | response c items =>
        have hc : c ≠ 0 := by
          simpa [fetchFailed, hfetch] using hf
        simp [processSymbols, hk, hfetch, hc]
  · intro items hk hfetch hne habort
    simp [processSymbols, hk, hfetch, habort, hne]

/-- Witness for the amended C7: a concrete fetch failure leaves the later
symbols' processing untouched. -/
theorem pnl_reconciliation_isolation_witness :
    processSymbols oC7fail [("AAAUSDT", [tA]), ("BBBUSDT", [tB])] =
      processSymbols oC7fail [("BBBUSDT", [tB])] := by
  have h := pnl_reconciliation_isolation oC7fail "AAAUSDT" [tA]
    [("BBBUSDT", [tB])]
  exact h.1 rfl

end ClaudeDoTrade

namespace ClaudeDoTrade

/-- Helper: the lower clamp `if x < mn then mn else x` is monotone. -/
theorem lower_clamp_mono {mn x y : ℚ} (h : x ≤ y) :
    (if x < mn then mn else x) ≤ (if y < mn then mn else y) := by
  split_ifs with h1 h2 <;> linarith

/-- Helper: the upper clamp `if x > m then m else x` is monotone. -/
theorem upper_clamp_mono {m x y : ℚ} (h : x ≤ y) :
    (if x > m then m else x) ≤ (if y > m then m else y) := by
  split_ifs with h1 h2 <;> linarith

/-- Helper: flooring to a step size is monotone, for a step of either sign
(for a negative step, both the division and the final multiplication flip
the order, so the composite is again monotone; for a zero step both sides
are zero). -/
theorem floor_step_mono (st : ℚ) {x y : ℚ} (h : x ≤ y) :
    ((⌊x / st⌋ : ℤ) : ℚ) * st ≤ ((⌊y / st⌋ : ℤ) : ℚ) * st := by
  rcases lt_trichotomy st 0 with hst | hst | hst
  · have hinv : (st)⁻¹ ≤ 0 := inv_nonpos.mpr hst.le
    have hq : y / st ≤ x / st := by
      rw [div_eq_mul_inv, div_eq_mul_inv]
      exact mul_le_mul_of_nonpos_right h hinv
    have hfl : (⌊y / st⌋ : ℤ) ≤ ⌊x / st⌋ := Int.floor_le_floor hq
    have hflq : ((⌊y / st⌋ : ℤ) : ℚ) ≤ ((⌊x / st⌋ : ℤ) : ℚ) := by exact_mod_cast hfl
    exact mul_le_mul_of_nonpos_right hflq hst.le
  · simp [hst]
  · have hq : x / st ≤ y / st := by gcongr
    have hfl : (⌊x / st⌋ : ℤ) ≤ ⌊y / st⌋ := Int.floor_le_floor hq
    have hflq : ((⌊x / st⌋ : ℤ) : ℚ) ≤ ((⌊y / st⌋ : ℤ) : ℚ) := by exact_mod_cast hfl
    exact mul_le_mul_of_nonneg_right hflq hst.le

/-- Helper: the computed quantity is a floor multiple of the step, or one of
the two clamps. -/
theorem cq_step_or_clamp (b p : ℚ) (lev : ℤ) (pr mn st : ℚ) (mx : Option ℚ) :
    (∃ k : ℤ, calculate_quantity b p lev pr mn st mx = (k : ℚ) * st) ∨
    calculate_quantity b p lev pr mn st mx = mn ∨
    (∃ m, mx = some m ∧ calculate_quantity b p lev pr mn st mx = m) := by
  cases mx with
  | none =>
    simp only [calculate_quantity]
    split_ifs with h0 hq
    · right; left; rfl
    · right; left; rfl
    · left; exact ⟨_, rfl⟩
  | some m =>
    simp only [calculate_quantity]
    split_ifs <;>
      first
        | (right; left; rfl)
        | (left; exact ⟨_, rfl⟩)
        | (right; right; exact ⟨m, rfl, rfl⟩)

/-- Helper: range of the computed quantity. -/
theorem cq_range (b p : ℚ) (lev : ℤ) (pr mn st : ℚ) (mx : Option ℚ) :
    (mx = none → mn ≤ calculate_quantity b p lev pr mn st mx) ∧
    (∀ m, mx = some m → mn ≤ m →
      mn ≤ calculate_quantity b p lev pr mn st mx ∧
      calculate_quantity b p lev pr mn st mx ≤ m) := by
  constructor
  · rintro rfl
    simp only [calculate_quantity]
    split_ifs with h0 hq <;> linarith
  · rintro m rfl hm
    simp only [calculate_quantity]
    split_ifs with h0 h1 h2 <;> constructor <;> linarith

/-- Helper: monotonicity in the balance argument, given nonnegative percent,
leverage and price (no condition on the step is needed: see
`floor_step_mono`). -/
theorem cq_mono_balance (b b2 p : ℚ) (lev : ℤ) (pr mn st : ℚ) (mx : Option ℚ)
    (hb : b ≤ b2) (hp : 0 ≤ p) (hl : 0 ≤ lev) (hpr : 0 ≤ pr) :
    calculate_quantity b p lev pr mn st mx ≤
      calculate_quantity b2 p lev pr mn st mx := by
  rcases eq_or_lt_of_le hpr with hpr0 | hpr0
  · simp [calculate_quantity, ← hpr0]
  by_cases hst0 : st = 0
  · simp [calculate_quantity, hst0]
  have h0 : ¬(pr = 0 ∨ st = 0) := by
    push_neg
    exact ⟨ne_of_gt hpr0, hst0⟩
  have hc : (0 : ℚ) ≤ p / 100 := div_nonneg hp (by norm_num)
  have hlq : (0 : ℚ) ≤ (lev : ℚ) := by exact_mod_cast hl
  have h1 : b * (p / 100) * (lev : ℚ) ≤ b2 * (p / 100) * (lev : ℚ) :=
    mul_le_mul_of_nonneg_right (mul_le_mul_of_nonneg_right hb hc) hlq
  have hraw : b * (p / 100) * (lev : ℚ) / pr ≤ b2 * (p / 100) * (lev : ℚ) / pr := by
    gcongr
  have hq := floor_step_mono st hraw
  cases mx with
  | none =>
    simp only [calculate_quantity, if_neg h0]
    exact lower_clamp_mono hq
  | some m =>
    simp only [calculate_quantity, if_neg h0]
    exact upper_clamp_mono (lower_clamp_mono hq)

/-- Helper: monotonicity in the leverage argument, given nonnegative balance,
percent and price (no condition on the step is needed). -/
theorem cq_mono_leverage (b p : ℚ) (lev l2 : ℤ) (pr mn st : ℚ) (mx : Option ℚ)
    (hl : lev ≤ l2) (hb : 0 ≤ b) (hp : 0 ≤ p) (hpr : 0 ≤ pr) :
    calculate_quantity b p lev pr mn st mx ≤
      calculate_quantity b p l2 pr mn st mx := by
  rcases eq_or_lt_of_le hpr with hpr0 | hpr0
  · simp [calculate_quantity, ← hpr0]
  by_cases hst0 : st = 0
  · simp [calculate_quantity, hst0]
  have h0 : ¬(pr = 0 ∨ st = 0) := by
    push_neg
    exact ⟨ne_of_gt hpr0, hst0⟩
  have hc : (0 : ℚ) ≤ b * (p / 100) :=
    mul_nonneg hb (div_nonneg hp (by norm_num))
  have hlq : ((lev : ℤ) : ℚ) ≤ ((l2 : ℤ) : ℚ) := by exact_mod_cast hl
  have h1 : b * (p / 100) * (lev : ℚ) ≤ b * (p / 100) * (l2 : ℚ) :=
    mul_le_mul_of_nonneg_left hlq hc
  have hraw : b * (p / 100) * (lev : ℚ) / pr ≤ b * (p / 100) * (l2 : ℚ) / pr := by
    gcongr
  have hq := floor_step_mono st hraw
  cases mx with
  | none =>
    simp only [calculate_quantity, if_neg h0]
    exact lower_clamp_mono hq
  | some m =>
    simp only [calculate_quantity, if_neg h0]
    exact upper_clamp_mono (lower_clamp_mono hq)

/-- C9 (amended): the computed quantity is an integer multiple of the step
size unless it was clamped, in which case it equals `min_qty` or `max_qty`;
it is at least `min_qty` when no maximum is configured, and lies in
`[min_qty, max_qty]` whenever `min_qty ≤ max_qty`; it is monotone
(non-decreasing) in balance when percent, leverage and price are all
nonnegative, and monotone in leverage when balance, percent and price are
all nonnegative. -/
theorem calculate_quantity_props (b p : ℚ) (lev : ℤ) (pr mn st : ℚ)
    (mx : Option ℚ) :
    ((∃ k : ℤ, calculate_quantity b p lev pr mn st mx = (k : ℚ) * st) ∨
      calculate_quantity b p lev pr mn st mx = mn ∨
      (∃ m, mx = some m ∧ calculate_quantity b p lev pr mn st mx = m)) ∧
    ((mx = none → mn ≤ calculate_quantity b p lev pr mn st mx) ∧
      (∀ m, mx = some m → mn ≤ m →
        mn ≤ calculate_quantity b p lev pr mn st mx ∧
        calculate_quantity b p lev pr mn st mx ≤ m)) ∧
    (∀ b2, b ≤ b2 → 0 ≤ p → 0 ≤ lev → 0 ≤ pr →
      calculate_quantity b p lev pr mn st mx ≤
        calculate_quantity b2 p lev pr mn st mx) ∧
    (∀ l2, lev ≤ l2 → 0 ≤ b → 0 ≤ p → 0 ≤ pr →
      calculate_quantity b p lev pr mn st mx ≤
        calculate_quantity b p l2 pr mn st mx) :=
  ⟨cq_step_or_clamp b p lev pr mn st mx,
   cq_range b p lev pr mn st mx,
   fun b2 hb hp hl hpr => cq_mono_balance b b2 p lev pr mn st mx hb hp hl hpr,
   fun l2 hl hb hp hpr => cq_mono_leverage b p lev l2 pr mn st mx hl hb hp hpr⟩

/-- Witness for the amended C9 at concrete inputs. -/
theorem calculate_quantity_props_witness :
    (1/100 : ℚ) ≤ calculate_quantity 1000 10 5 100 (1/100) (1/100) none := by
  have h := calculate_quantity_props 1000 10 5 100 (1/100) (1/100) none
  exact h.2.1.1 rfl

/-- C9 (counterexample): each universally stated part of the original claim
fails at a concrete input.
* Step multiple: with zero balance the quantity is clamped up to a `min_qty`
  of 0.3, not an integer multiple of the 0.2 step size.
* Range: with `min_qty = 2 > max_qty = 1` the result is 1, below `min_qty`.
* Balance monotonicity fails whenever one of leverage, percent or price is
  negative (one instance each: balance grows from -1 to 0 yet the quantity
  drops from 1 to 0).
* Leverage monotonicity likewise fails whenever one of balance, percent or
  price is negative (leverage grows from -1 to 0 yet the quantity drops
  from 1 to 0). -/
theorem calculate_quantity_original_claim_fails :
    (calculate_quantity 0 10 5 100 (3/10) (1/5) none = 3/10 ∧
      ¬ ∃ k : ℤ, calculate_quantity 0 10 5 100 (3/10) (1/5) none =
        (k : ℚ) * (1/5)) ∧
    calculate_quantity 0 10 5 100 2 1 (some 1) < 2 ∧
    ¬(calculate_quantity (-1) 100 (-1) 1 0 1 none ≤
        calculate_quantity 0 100 (-1) 1 0 1 none) ∧
    ¬(calculate_quantity (-1) (-100) 1 1 0 1 none ≤
        calculate_quantity 0 (-100) 1 1 0 1 none) ∧
    ¬(calculate_quantity (-1) 100 1 (-1) 0 1 none ≤
        calculate_quantity 0 100 1 (-1) 0 1 none) ∧
    ¬(calculate_quantity (-1) 100 (-1) 1 0 1 none ≤
        calculate_quantity (-1) 100 0 1 0 1 none) ∧
    ¬(calculate_quantity 1 (-100) (-1) 1 0 1 none ≤
        calculate_quantity 1 (-100) 0 1 0 1 none) ∧
    ¬(calculate_quantity 1 100 (-1) (-1) 0 1 none ≤
        calculate_quantity 1 100 0 (-1) 0 1 none) := by
  refine ⟨⟨?_, ?_⟩, ?_, ?_, ?_, ?_, ?_, ?_, ?_⟩
  · simp only [calculate_quantity]
    norm_num
  · have hval : calculate_quantity 0 10 5 100 (3/10) (1/5) none = 3/10 := by
      simp only [calculate_quantity]
      norm_num
    rintro ⟨k, hk⟩
    rw [hval] at hk
    have h2 : (2 : ℚ) * (k : ℚ) = 3 := by linarith
    have h3 : (2 : ℤ) * k = 3 := by exact_mod_cast h2
    omega
  all_goals
    simp only [calculate_quantity]
    norm_num

end ClaudeDoTrade
